import Mathlib

/-!
# Verification of the SDS011 AQI exporter (`get_aqi.py`)

A shallow embedding of the measurement/aggregation/export pipeline of
`get_aqi.py`, together with proofs about the claims its specification makes.

Conventions of the embedding:
* Python floats are modelled as rationals (`ℚ`); the arithmetic the program
  performs on sensor readings (sums, division by a small count, rounding to
  one decimal) is exact on the inputs of interest.
* Python exceptions are modelled with `Except String`: a raised exception is
  `Except.error msg` and propagates exactly where the source propagates it.
* External collaborators (the SDS011 driver, the aqipy formula library, the
  MQTT client, the LED device files) are modelled as data passed in: a cycle's
  sensor behaviour is a trace of wake/query/sleep results, the aqipy functions
  are a record of functions, and sink writes are recorded values.
-/

set_option autoImplicit false

namespace GetAqi

/-- Result of one cycle of sensor I/O: the outcome of the wake-up call
(`sensor.sleep(sleep=False)`), of each `sensor.query()` call made in the
measuring loop, and of the final `sensor.sleep(sleep=True)` call.  An
`Except.error` entry models the driver raising at that point. -/
structure CycleSensor where
  wake : Except String Unit
  queries : List (Except String (ℚ × ℚ))
  sleepRes : Except String Unit
deriving Repr

/-- Process-wide Prometheus metric state touched by `get_data`: the `PM25` and
`PM10` gauges and the observation streams of the two histograms.  A histogram
is modelled by the list of values observed into it. -/
structure Metrics where
  gauge25 : ℚ
  gauge10 : ℚ
  hist25 : List ℚ
  hist10 : List ℚ
deriving Repr, DecidableEq

/-- Bucket boundaries of `PM25_HIST` and `PM10_HIST`
(`buckets=(0, 5, 10, ..., 100)` in the source). -/
def pmBuckets : List ℕ :=
  [0, 5, 10, 15, 20, 25, 30, 35, 40, 45, 50, 55, 60, 65, 70, 75, 80, 85, 90, 95, 100]

/-- Python `round` (banker's rounding, round-half-to-even) to an integer. -/
def roundHalfEven (q : ℚ) : ℤ :=
  let f := ⌊q⌋
  if q - f < 1/2 then f
  else if 1/2 < q - f then f + 1
  else if f % 2 = 0 then f else f + 1

/-- Python `round(x, 1)`: round to one decimal place, ties to even. -/
def round1 (q : ℚ) : ℚ := (roundHalfEven (q * 10) : ℚ) / 10

/-- The accumulation loop of `get_data`: `for _ in range(measures):
x = sensor.query(); current_pm25 += x[0]; current_pm10 += x[1]`.
A query that raises propagates immediately (no handler in the source). -/
def sumQueries : List (Except String (ℚ × ℚ)) → ℚ × ℚ → Except String (ℚ × ℚ)
  | [], acc => .ok acc
  | q :: qs, acc =>
    match q with
    | .error e => .error e
    | .ok x => sumQueries qs (acc.1 + x.1, acc.2 + x.2)

/-- Embeds `get_data(sensor, measures, start_delay, operation_delay)`.  The sensor's
behaviour for the cycle is given by `wake`, `queries` (one entry per iteration
of the measuring loop, so `measures = queries.length`) and `sleepRes`.  The
`time.sleep` pauses have no effect on the computed values and are not
modelled.  On success it returns the rounded per-cycle averages and the
updated metric state (`PM25.set`, `PM10.set`, `PM25_HIST.observe(pm25)`,
`PM10_HIST.observe(pm10 - pm25)`); any driver exception propagates and the
metrics are left untouched. -/
def get_data (m : Metrics) (wake : Except String Unit)
    (queries : List (Except String (ℚ × ℚ))) (sleepRes : Except String Unit) :
    Except String ((ℚ × ℚ) × Metrics) :=
  match wake with
  | .error e => .error e
  | .ok _ =>
    match sumQueries queries (0, 0) with
    | .error e => .error e
    | .ok sums =>
      let measures : ℚ := queries.length
      let current_pm25 := round1 (sums.1 / measures)
      let current_pm10 := round1 (sums.2 / measures)
      match sleepRes with
      | .error e => .error e
      | .ok _ =>
        .ok ((current_pm25, current_pm10),
             { gauge25 := current_pm25
               gauge10 := current_pm10
               hist25 := m.hist25 ++ [current_pm25]
               hist10 := m.hist10 ++ [current_pm10 - current_pm25] })

/-- Embeds `get_aqi_interval(country)`.  Note the source tests `country in ("EU")`:
`("EU")` is the plain string `"EU"`, so this is Python substring membership,
not tuple membership. -/
def get_aqi_interval (country : String) : ℤ :=
  if country = "CN" ∨ country = "US" then 86400
  else if country.data <:+: "EU".data then 3600
  else -1

/-- The startup computation of the window capacity:
`num_measures = aqi_interval // args.delay` followed by
`if num_measures <= 0: num_measures = 1`.  Python `//` is floor division,
hence `Int.fdiv`. -/
def num_measures (country : String) (delay : ℤ) : ℤ :=
  let n := Int.fdiv (get_aqi_interval country) delay
  if n ≤ 0 then 1 else n

/-- The averaging periods the specification prescribes per country, written
from the spec's words (86400 s for CN and US, 3600 s for EU) to be compared
with the source's `get_aqi_interval`. -/
def averaging_seconds (country : String) : ℤ :=
  if country = "CN" ∨ country = "US" then 86400
  else if country = "EU" then 3600
  else -1

/-- The external aqipy formula library consumed by `compute_aqi`: each
function models one call shape the source makes.  `*_aqi` models the call
without `with_level` (returning the index and the breakdown data, the latter
abstracted as a printable value), `*_level` models the call with
`with_level=True` (returning the index and the level object, abstracted as
its `level` name). -/
structure AqiLib where
  cn_aqi : ℚ → ℚ → ℤ × String
  cn_level : ℚ → ℚ → ℤ × String
  eu_aqi : ℚ → ℚ → ℤ × String
  eu_level : ℚ → ℚ → ℤ × String
  us_aqi : ℚ → ℚ → ℤ × String
  us_level : ℚ → ℚ → ℤ × String

/-- Embeds `compute_aqi(pm25, pm10, country)`: country-keyed dispatch into the aqipy
library, calling each formula twice (once for the breakdown data, once with
`with_level=True`); the index is the one returned by the second call, exactly
as the source overwrites `current_aqi`.  Unknown countries fall through to
the initial values `(-1, {}, "")`. -/
def compute_aqi (F : AqiLib) (pm25 pm10 : ℚ) (country : String) : ℤ × String × String :=
  if country = "CN" then
    let d := (F.cn_aqi pm25 pm10).2
    let al := F.cn_level pm25 pm10
    (al.1, d, al.2)
  else if country = "EU" then
    let d := (F.eu_aqi pm25 pm10).2
    let al := F.eu_level pm25 pm10
    (al.1, d, al.2)
  else if country = "US" then
    let d := (F.us_aqi pm25 pm10).2
    let al := F.us_level pm25 pm10
    (al.1, d, al.2)
  else (-1, "", "")

/-- Embeds `get_aqi_color(aqi_level, country)`.  Python functions return `None` when
control falls off the end; that happens here for a supported country whose
`if/elif` chain matches no level name (including the `pass` at the end of the
US chain), and is modelled as `none`.  Only the final `else` (unknown
country) returns the empty string. -/
def get_aqi_color (aqi_level country : String) : Option String :=
  if country = "CN" then
    if aqi_level = "excellent" then some "0 255 0"
    else if aqi_level = "good" then some "255 255 0"
    else if aqi_level = "lightly polluted" then some "255 153 0"
    else if aqi_level = "moderately polluted" then some "255 0 0"
    else if aqi_level = "heavily polluted" then some "84 0 153"
    else if aqi_level = "severely polluted" then some "128 0 0"
    else none
  else if country = "EU" then
    if aqi_level = "very low" then some "0 255 0"
    else if aqi_level = "low" then some "163 255 15"
    else if aqi_level = "medium" then some "255 255 0"
    else if aqi_level = "high" then some "255 153 0"
    else if aqi_level = "very high" then some "255 0 0"
    else none
  else if country = "US" then
    if aqi_level = "Good" then some "121 227 71"
    else if aqi_level = "Moderate" then some "251 255 93"
    else if aqi_level = "Unhealthy for Sensitive Groups" then some "226 138 54"
    else if aqi_level = "Unhealthy" then some "234 51 36"
    else if aqi_level = "Very Unhealthy" then some "126 63 185"
    else if aqi_level = "Hazardous" then some "126 63 185"
    else none
  else some ""

/-- The level names mapped by `get_aqi_color` for each country (the keys of
its `if/elif` chains). -/
def levelNames (country : String) : List String :=
  if country = "CN" then
    ["excellent", "good", "lightly polluted", "moderately polluted",
     "heavily polluted", "severely polluted"]
  else if country = "EU" then
    ["very low", "low", "medium", "high", "very high"]
  else if country = "US" then
    ["Good", "Moderate", "Unhealthy for Sensitive Groups", "Unhealthy",
     "Very Unhealthy", "Hazardous"]
  else []

/-- Embeds `set_turris_omnia_led(user1_color, user2_color)`: for each channel,
records the string written to that channel's color device file (the color
followed by a newline), or `none` when the color is empty and the channel is
left untouched. -/
def set_turris_omnia_led (user1_color user2_color : String) :
    Option String × Option String :=
  (if user1_color ≠ "" then some (user1_color ++ "\n") else none,
   if user2_color ≠ "" then some (user2_color ++ "\n") else none)

/-- Python `rstrip("/")`: remove every trailing `/` character. -/
def rstripSlash (s : String) : String :=
  ⟨(s.data.reverse.dropWhile (fun c => c = '/')).reverse⟩

/-- The topic normalisation in the main loop: `topic = args.mqtt_base_topic;
if args.mqtt_base_topic.endswith("/"): topic = args.mqtt_base_topic.rstrip("/")`. -/
def mqttTopic (base : String) : String :=
  if base.data.getLast? = some '/' then rstripSlash base else base

/-- The four MQTT messages built each cycle: tuples
`(topic, payload, qos, retain)` with qos 0 and retain `False`.  The payloads
are the `str(...)` forms computed in the loop, passed in here already as
strings. -/
def mqttMessages (base aqiStr levelStr pm25Str pm10Str : String) :
    List (String × String × ℕ × Bool) :=
  [(mqttTopic base ++ "/aqi", aqiStr, 0, false),
   (mqttTopic base ++ "/level", levelStr, 0, false),
   (mqttTopic base ++ "/current_pm25", pm25Str, 0, false),
   (mqttTopic base ++ "/current_pm10", pm10Str, 0, false)]

/-- One `append` on a `deque(maxlen=n)`: the new value goes to the right and,
when the deque is full, the oldest (leftmost) value is discarded. -/
def window_push (n : ℕ) (w : List ℚ) (x : ℚ) : List ℚ :=
  let w2 := w ++ [x]
  if n < w2.length then w2.drop (w2.length - n) else w2

/-- A sequence of `append`s on a `deque(maxlen=n)`. -/
def window_pushAll (n : ℕ) (w : List ℚ) (xs : List ℚ) : List ℚ :=
  xs.foldl (window_push n) w

/-- Embeds `sum(dequeue) / len(dequeue)`: arithmetic mean of the currently held
values. -/
def window_average (w : List ℚ) : ℚ := w.sum / w.length

/-- Models the `choices=["CN", "EU", "US"]` constraint that `parse_args`
places on `--country`: argparse rejects any other value with a fatal usage
error before the program body runs. -/
def validate_country (country : String) : Except String String :=
  if country = "CN" ∨ country = "EU" ∨ country = "US" then .ok country
  else .error ("argument --country: invalid choice: " ++ country)

/-- Startup: validate the country (argparse), then compute the window
capacity; only on success does a configuration reach the measurement loop. -/
def startup (country : String) (delay : ℤ) : Except String (String × ℤ) :=
  match validate_country country with
  | .error e => .error e
  | .ok c => .ok (c, num_measures c delay)

/-- The configuration the main loop reads: the country, the window capacity
computed at startup, and which sinks are enabled (`--omnia-leds`, `--log`,
`--mqtt-hostname` present). -/
structure Config where
  country : String
  winSize : ℕ
  omnia_leds : Bool
  logEnabled : Bool
  mqttEnabled : Bool
  mqtt_base_topic : String

/-- The cross-cycle state of the loop: the two `deque`s. -/
structure LoopState where
  d25 : List ℚ
  d10 : List ℚ
deriving Repr

/-- What one loop iteration hands to the non-metrics sinks: the pair of LED
colors passed to `set_turris_omnia_led` (when `--omnia-leds` is set), the
`pm25,pm10,aqi` triple appended to the CSV log (when `--log` is set), and the
MQTT message list handed to `publish_mqtt` (when `--mqtt-hostname` is set). -/
structure CycleExports where
  led : Option (Option String × Option String)
  logLine : Option (ℚ × ℚ × ℤ)
  mqtt : Option (List (String × String × ℕ × Bool))
deriving Repr

/-- One iteration of the `while(True)` loop: take a reading via `get_data`,
append to both deques, average, compute the AQI, and build each enabled
sink's output.  `get_data` is not wrapped in any handler in the source, so a
driver exception propagates out of the iteration. -/
def cycleStep (cfg : Config) (F : AqiLib) (st : LoopState) (m : Metrics)
    (cs : CycleSensor) : Except String (LoopState × Metrics × CycleExports) :=
  match get_data m cs.wake cs.queries cs.sleepRes with
  | .error e => .error e
  | .ok ((current_pm25, current_pm10), m2) =>
    let d25 := window_push cfg.winSize st.d25 current_pm25
    let d10 := window_push cfg.winSize st.d10 current_pm10
    let average_pm25 := window_average d25
    let average_pm10 := window_average d10
    let r := compute_aqi F average_pm25 average_pm10 cfg.country
    let aqi := r.1
    let aqi_level := r.2.2
    let led :=
      if cfg.omnia_leds then
        some (get_aqi_color aqi_level cfg.country, get_aqi_color aqi_level cfg.country)
      else none
    let logL := if cfg.logEnabled then some (current_pm25, current_pm10, aqi) else none
    let mq :=
      if cfg.mqttEnabled then
        some (mqttMessages cfg.mqtt_base_topic (toString aqi) aqi_level
          (toString current_pm25) (toString current_pm10))
      else none
    .ok (⟨d25, d10⟩, m2, ⟨led, logL, mq⟩)

/-- Run the main loop over a finite trace of per-cycle sensor behaviours,
collecting each cycle's sink outputs.  An uncaught exception in a cycle
terminates the run with that error and no further cycles execute — there is
no handler anywhere in the loop body for sensor errors. -/
def runLoop (cfg : Config) (F : AqiLib) :
    LoopState → Metrics → List CycleSensor →
    Except String (LoopState × Metrics × List CycleExports)
  | st, m, [] => .ok (st, m, [])
  | st, m, cs :: rest =>
    match cycleStep cfg F st m cs with
    | .error e => .error e
    | .ok (st2, m2, exp) =>
      match runLoop cfg F st2 m2 rest with
      | .error e => .error e
      | .ok (stF, mF, outs) => .ok (stF, mF, exp :: outs)

/-- A concrete aqipy stand-in used for witnesses: the US formula at the
witness inputs reports index 50, level `Good`. -/
def FW : AqiLib where
  cn_aqi := fun _ _ => (50, "cn data")
  cn_level := fun _ _ => (50, "excellent")
  eu_aqi := fun _ _ => (25, "eu data")
  eu_level := fun _ _ => (25, "very low")
  us_aqi := fun _ _ => (50, "us data")
  us_level := fun _ _ => (50, "Good")

/-- Witness configuration: country US, window capacity 1, LED sink enabled,
log and MQTT disabled. -/
def cfgW : Config :=
  { country := "US", winSize := 1, omnia_leds := true,
    logEnabled := false, mqttEnabled := false, mqtt_base_topic := "sds011" }

/-- Fresh metric state (gauges at 0, no observations). -/
def m0 : Metrics := { gauge25 := 0, gauge10 := 0, hist25 := [], hist10 := [] }

/-- A cycle in which the driver works: wake succeeds, one query returns
`(10, 20)`, sleep succeeds. -/
def goodCycle : CycleSensor :=
  { wake := .ok (), queries := [.ok (10, 20)], sleepRes := .ok () }

/-- A cycle in which the driver raises inside `sensor.query()`. -/
def badCycle : CycleSensor :=
  { wake := .ok (), queries := [.error "sensor failure"], sleepRes := .ok () }

/-! ## Theorems -/

/-- C10: the averaging-interval lookup tests EU membership by substring —
`country in ("EU")` is Python substring membership in the string `"EU"` — so
the non-country inputs `"E"`, `"U"` and `""` all get 3600 exactly as `"EU"`
does, and `-1` is returned only for inputs outside {CN, US} that are not
substrings of `"EU"`. -/
theorem C10_eu_substring_membership :
    get_aqi_interval "E" = 3600 ∧ get_aqi_interval "U" = 3600 ∧
    get_aqi_interval "" = 3600 ∧ get_aqi_interval "EU" = 3600 ∧
    (∀ country : String, country ≠ "CN" → country ≠ "US" →
      ¬ (country.data <:+: "EU".data) → get_aqi_interval country = -1) := by
  refine ⟨by decide, by decide, by decide, by decide, ?_⟩
  intro c h1 h2 h3
  unfold get_aqi_interval
  rw [if_neg (by rintro (h | h) <;> contradiction), if_neg h3]

/-- Witness for C10 at the concrete input `"FR"`. -/
theorem C10_witness : get_aqi_interval "FR" = -1 :=
  C10_eu_substring_membership.2.2.2.2 "FR" (by decide) (by decide) (by decide)

/-- C7: a country code outside {CN, EU, US} is rejected at startup (argparse
`choices`) with a fatal error, so no such code ever reaches the running
pipeline: every configuration startup hands to the loop carries a supported
country. -/
theorem C7_invalid_country_fatal :
    (∀ country : String, country ≠ "CN" → country ≠ "EU" → country ≠ "US" →
      ∀ delay : ℤ, startup country delay =
        .error ("argument --country: invalid choice: " ++ country)) ∧
    (∀ (country : String) (delay : ℤ) (cfg : String × ℤ),
      startup country delay = .ok cfg →
      cfg.1 = "CN" ∨ cfg.1 = "EU" ∨ cfg.1 = "US") := by
  constructor
  · intro c h1 h2 h3 d
    unfold startup validate_country
    rw [if_neg (by rintro (h | h | h) <;> contradiction)]
  · intro c d cfg h
    by_cases hc : c = "CN" ∨ c = "EU" ∨ c = "US"
    · have hs : startup c d = .ok (c, num_measures c d) := by
        unfold startup validate_country
        rw [if_pos hc]
      rw [hs] at h
      injection h with h'
      rw [← h']
      simpa using hc
    · have hs : startup c d = .error ("argument --country: invalid choice: " ++ c) := by
        unfold startup validate_country
        rw [if_neg hc]
      rw [hs] at h
      exact Except.noConfusion h

/-- Witness for C7 at the concrete invalid code `"FR"`. -/
theorem C7_witness :
    startup "FR" 10 = .error ("argument --country: invalid choice: FR") :=
  C7_invalid_country_fatal.1 "FR" (by decide) (by decide) (by decide) 10

/-- C2: for every supported country and every delay ≥ 1 the window capacity
computed at startup is `max 1 (averaging_seconds country // delay)`, with the
averaging period 86400 s for CN and US and 3600 s for EU (the source's
`get_aqi_interval` agrees with the spec's `averaging_seconds` on supported
countries); the capacity is always ≥ 1 and degrades to exactly 1 when the
delay exceeds the averaging period. -/
theorem C2_window_capacity (country : String)
    (hc : country = "CN" ∨ country = "EU" ∨ country = "US")
    (delay : ℤ) (hd : 1 ≤ delay) :
    num_measures country delay = max 1 (Int.fdiv (averaging_seconds country) delay) ∧
    1 ≤ num_measures country delay ∧
    averaging_seconds country = get_aqi_interval country ∧
    (averaging_seconds country < delay → num_measures country delay = 1) := by
  have hag : averaging_seconds country = get_aqi_interval country := by
    rcases hc with rfl | rfl | rfl <;> decide
  have hpos : 1 ≤ get_aqi_interval country := by
    rcases hc with rfl | rfl | rfl <;> decide
  have hq : 0 ≤ Int.fdiv (get_aqi_interval country) delay :=
    Int.fdiv_nonneg (by omega) (by omega)
  have hmain : num_measures country delay =
      max 1 (Int.fdiv (get_aqi_interval country) delay) := by
    unfold num_measures
    by_cases h : Int.fdiv (get_aqi_interval country) delay ≤ 0
    · have h0 : Int.fdiv (get_aqi_interval country) delay = 0 := le_antisymm h hq
      rw [if_pos h, h0, max_eq_left (by omega)]
    · rw [if_neg h, max_eq_right (by omega)]
  refine ⟨by rw [hmain, hag], by rw [hmain]; exact le_max_left _ _, hag, ?_⟩
  intro hlt
  have hzero : Int.fdiv (get_aqi_interval country) delay = 0 := by
    rw [Int.fdiv_eq_ediv _ (by omega)]
    exact Int.ediv_eq_zero_of_lt (by omega) (by omega)
  unfold num_measures
  rw [if_pos (by rw [hzero])]

/-- Witness for C2 at country US, delay 10 (capacity 8640). -/
theorem C2_witness :
    num_measures "US" 10 = max 1 (Int.fdiv (averaging_seconds "US") 10) ∧
    1 ≤ num_measures "US" 10 :=
  ⟨(C2_window_capacity "US" (Or.inr (Or.inr rfl)) 10 (by decide)).1,
   (C2_window_capacity "US" (Or.inr (Or.inr rfl)) 10 (by decide)).2.1⟩

/-- C5 counterexample: the claim says every (country, level-name) pair absent
from that country's mapping yields the empty string, but for the supported
country US with the unmapped level name `"unknown"` the function falls off
the end of the `if/elif` chain and returns Python `None` (modelled `none`),
which is not the empty string and not a string at all. -/
theorem C5_counterexample :
    get_aqi_color "unknown" "US" = none ∧
    get_aqi_color "unknown" "US" ≠ some "" := by
  decide

/-- C5 amended: the color lookup is total, but only unsupported countries get
the empty string (the final `else`); a supported country with a level name
outside its mapping table returns no string at all (Python `None`). -/
theorem C5_amended_color_totality (aqi_level country : String) :
    ((country = "CN" ∨ country = "EU" ∨ country = "US") →
      aqi_level ∉ levelNames country → get_aqi_color aqi_level country = none) ∧
    (country ≠ "CN" → country ≠ "EU" → country ≠ "US" →
      get_aqi_color aqi_level country = some "") := by
  constructor
  · rintro (rfl | rfl | rfl) hmem <;> simp_all [get_aqi_color, levelNames]
  · intro h1 h2 h3
    unfold get_aqi_color
    rw [if_neg h1, if_neg h2, if_neg h3]

/-- Witness for C5's amended claim: unmapped level for CN gives `none`,
unsupported country FR gives `some ""`. -/
theorem C5_witness :
    get_aqi_color "unknown" "CN" = none ∧ get_aqi_color "anything" "FR" = some "" :=
  ⟨(C5_amended_color_totality "unknown" "CN").1 (Or.inl rfl) (by decide),
   (C5_amended_color_totality "anything" "FR").2 (by decide) (by decide) (by decide)⟩

/-- The main loop's topic normalisation always equals "strip all trailing
slashes": when the configured base topic does not end in `/`, `rstrip`
removes nothing. -/
theorem mqttTopic_eq_rstripSlash (s : String) : mqttTopic s = rstripSlash s := by
  unfold mqttTopic
  by_cases h : s.data.getLast? = some '/'
  · rw [if_pos h]
  · rw [if_neg h]
    cases s with
    | mk l =>
      unfold rstripSlash
      rw [List.getLast?_eq_head?_reverse] at h
      cases hr : l.reverse with
      | nil =>
        have : l = [] := by simpa using congrArg List.reverse hr
        simp [this]
      | cons c t =>
        rw [hr] at h
        have hc : ¬ (c = '/') := fun hcc => h (by rw [hcc]; rfl)
        show String.mk l = String.mk (List.dropWhile _ (c :: t)).reverse
        rw [List.dropWhile_cons, if_neg (by simpa using hc), ← hr,
          List.reverse_reverse]

/-- C6: every cycle with MQTT configured publishes exactly the four topics
`<topic>/aqi`, `<topic>/level`, `<topic>/current_pm25`,
`<topic>/current_pm10`; appending a trailing slash to the configured base
topic never changes the normalised topic, and in particular the bases
`"aqi/"` and `"aqi"` produce identical message lists. -/
theorem C6_mqtt_topic_normalisation :
    (∀ base aqiStr levelStr pm25Str pm10Str : String,
      (mqttMessages base aqiStr levelStr pm25Str pm10Str).map Prod.fst =
        [mqttTopic base ++ "/aqi", mqttTopic base ++ "/level",
         mqttTopic base ++ "/current_pm25", mqttTopic base ++ "/current_pm10"]) ∧
    (∀ base : String, mqttTopic (base ++ "/") = mqttTopic base) ∧
    (∀ aqiStr levelStr pm25Str pm10Str : String,
      mqttMessages "aqi/" aqiStr levelStr pm25Str pm10Str =
        mqttMessages "aqi" aqiStr levelStr pm25Str pm10Str) := by
  refine ⟨fun base a l p q => by simp [mqttMessages], fun base => ?_, fun a l p q => ?_⟩
  · rw [mqttTopic_eq_rstripSlash, mqttTopic_eq_rstripSlash]
    unfold rstripSlash
    congr 1
    rw [String.data_append]
    have hd : ("/" : String).data = ['/'] := rfl
    rw [hd, List.reverse_append]
    simp [List.dropWhile_cons]
  · have h : mqttTopic "aqi/" = mqttTopic "aqi" := by decide
    simp [mqttMessages, h]

/-- A `deque` append keeps the suffix of capacity many values. -/
theorem window_push_eq (n : ℕ) (w : List ℚ) (x : ℚ) :
    window_push n w x = (w ++ [x]).drop ((w ++ [x]).length - n) := by
  unfold window_push
  by_cases h : n < (w ++ [x]).length
  · rw [if_pos h]
  · rw [if_neg h]
    have h0 : (w ++ [x]).length - n = 0 := by omega
    rw [h0, List.drop_zero]

/-- After any sequence of `deque` appends starting from a state within
capacity, the deque holds exactly the last `n` values of "initial contents
followed by everything pushed". -/
theorem window_pushAll_eq (n : ℕ) (w : List ℚ) (hw : w.length ≤ n)
    (xs : List ℚ) :
    window_pushAll n w xs = (w ++ xs).drop ((w ++ xs).length - n) := by
  induction xs generalizing w with
  | nil =>
    have h0 : w.length - n = 0 := by omega
    simp [window_pushAll, h0]
  | cons x xs ih =>
    have hstep : window_pushAll n w (x :: xs) =
        window_pushAll n (window_push n w x) xs := rfl
    have hlen : (window_push n w x).length ≤ n := by
      rw [window_push_eq]
      simp only [List.length_drop, List.length_append, List.length_singleton]
      omega
    rw [hstep, ih _ hlen, window_push_eq]
    have hd : (w ++ [x]).length - n ≤ (w ++ [x]).length := by omega
    have hAx : (w ++ [x]) ++ xs = w ++ x :: xs := by simp
    rw [← List.drop_append_of_le_length hd, List.drop_drop, hAx]
    congr 1
    simp only [List.length_drop, List.length_append, List.length_singleton,
      List.length_cons, List.length_nil]
    omega

/-- C3: starting empty, a capacity-`N` window (N ≥ 1) never holds more than
`N` values; a push at capacity drops the oldest value (FIFO); after `k`
pushes it holds exactly the `min k N` most recent values (all of them while
`k ≤ N`), and the computed average is the arithmetic mean of exactly those
held values. -/
theorem C3_rolling_window (n : ℕ) (hn : 1 ≤ n) (xs : List ℚ) :
    (window_pushAll n [] xs).length ≤ n ∧
    window_pushAll n [] xs = xs.drop (xs.length - n) ∧
    (∀ (w : List ℚ) (x : ℚ), w.length = n → window_push n w x = w.tail ++ [x]) ∧
    (xs.length ≤ n → window_pushAll n [] xs = xs) ∧
    window_average (window_pushAll n [] xs) =
      (xs.drop (xs.length - n)).sum / (xs.drop (xs.length - n)).length := by
  have hall : window_pushAll n [] xs = xs.drop (xs.length - n) := by
    have := window_pushAll_eq n [] (by simp) xs
    simpa using this
  refine ⟨?_, hall, ?_, ?_, by rw [hall, window_average]⟩
  · rw [hall, List.length_drop]; omega
  · intro w x hw
    rw [window_push_eq]
    have h1 : (w ++ [x]).length - n = 1 := by simp [hw]
    rw [h1, List.drop_append_of_le_length (by omega), List.drop_one]
  · intro hk
    rw [hall, Nat.sub_eq_zero_of_le hk, List.drop_zero]

/-- Witness for C3 at capacity 2 with pushes 1, 2, 3: the window is `[2, 3]`
and the average is 5/2. -/
theorem C3_witness :
    (window_pushAll 2 [] [1, 2, 3]).length ≤ 2 ∧
    window_pushAll 2 [] [1, 2, 3] = [2, 3] ∧
    window_average (window_pushAll 2 [] [1, 2, 3]) = 5 / 2 := by
  have h := C3_rolling_window 2 (by decide) [1, 2, 3]
  have he : window_pushAll 2 [] [1, 2, 3] = [2, 3] := h.2.1.trans rfl
  refine ⟨h.1, he, ?_⟩
  rw [he]
  norm_num [window_average]

/-- The accumulation loop on an all-successful query list adds the component
sums of the raw pairs to the accumulator. -/
theorem sumQueries_ok (qs : List (ℚ × ℚ)) (acc : ℚ × ℚ) :
    sumQueries (qs.map Except.ok) acc =
      .ok (acc.1 + (qs.map Prod.fst).sum, acc.2 + (qs.map Prod.snd).sum) := by
  induction qs generalizing acc with
  | nil => simp [sumQueries]
  | cons q qs ih =>
    show sumQueries (qs.map Except.ok) (acc.1 + q.1, acc.2 + q.2) = _
    rw [ih]
    simp only [List.map_cons, List.sum_cons, Except.ok.injEq, Prod.mk.injEq]
    constructor <;> ring

/-- Full characterisation of a successful `get_data` call: the returned pair
is the component-wise mean of the raw sub-samples rounded to one decimal, the
gauges are set to that pair, and the histograms observe `pm25` and
`pm10 - pm25` respectively. -/
theorem get_data_ok (m : Metrics) (raw : List (ℚ × ℚ)) :
    get_data m (.ok ()) (raw.map Except.ok) (.ok ()) =
      .ok ((round1 ((raw.map Prod.fst).sum / raw.length),
            round1 ((raw.map Prod.snd).sum / raw.length)),
           { gauge25 := round1 ((raw.map Prod.fst).sum / raw.length)
             gauge10 := round1 ((raw.map Prod.snd).sum / raw.length)
             hist25 := m.hist25 ++ [round1 ((raw.map Prod.fst).sum / raw.length)]
             hist10 := m.hist10 ++
               [round1 ((raw.map Prod.snd).sum / raw.length) -
                round1 ((raw.map Prod.fst).sum / raw.length)] }) := by
  unfold get_data
  rw [sumQueries_ok]
  simp [List.length_map]

/-- C4: for every cycle of k ≥ 1 successful sub-sample queries, the sampler
returns the arithmetic mean of the k raw (pm25, pm10) pairs, each component
rounded to one decimal place. -/
theorem C4_sampler_mean (m : Metrics) (raw : List (ℚ × ℚ))
    (_hk : 1 ≤ raw.length) :
    ∃ m2 : Metrics,
      get_data m (.ok ()) (raw.map Except.ok) (.ok ()) =
        .ok ((round1 ((raw.map Prod.fst).sum / raw.length),
              round1 ((raw.map Prod.snd).sum / raw.length)), m2) :=
  ⟨_, get_data_ok m raw⟩

/-- Witness for C4: the claim's own scenario — k = 3 raw sub-samples
(10,20), (12,22), (11,21) — yields pm25 = 11.0, pm10 = 21.0. -/
theorem C4_witness :
    ∃ m2 : Metrics,
      get_data m0 (.ok ())
        ([((10 : ℚ), (20 : ℚ)), (12, 22), (11, 21)].map Except.ok) (.ok ()) =
        .ok ((11, 21), m2) := by
  obtain ⟨m2, h⟩ := C4_sampler_mean m0 [(10, 20), (12, 22), (11, 21)] (by decide)
  exact ⟨m2, h.trans (by norm_num [round1, roundHalfEven])⟩

/-- C8: on a successful cycle the metrics sink sets the pm25/pm10 gauges to
the cycle's averaged reading, observes pm25 into the pm25 histogram and the
difference pm10 − pm25 (not raw pm10) into the pm10 histogram; both
histograms use the fixed bucket boundaries 0, 5, 10, ..., 100. -/
theorem C8_metrics_sink :
    (∀ (m : Metrics) (raw : List (ℚ × ℚ)) (p25 p10 : ℚ) (m2 : Metrics),
      get_data m (.ok ()) (raw.map Except.ok) (.ok ()) = .ok ((p25, p10), m2) →
      m2.gauge25 = p25 ∧ m2.gauge10 = p10 ∧
      m2.hist25 = m.hist25 ++ [p25] ∧ m2.hist10 = m.hist10 ++ [p10 - p25]) ∧
    pmBuckets = (List.range 21).map (fun i => 5 * i) := by
  constructor
  · intro m raw p25 p10 m2 h
    rw [get_data_ok] at h
    simp only [Except.ok.injEq, Prod.mk.injEq] at h
    obtain ⟨⟨h1, h2⟩, h3⟩ := h
    subst h1
    subst h2
    subst h3
    exact ⟨rfl, rfl, rfl, rfl⟩
  · decide

/-- Witness for C8 at one raw sub-sample (10, 20): the gauges read 10 and 20,
the pm25 histogram observed 10, and the pm10 histogram observed 20 − 10. -/
theorem C8_witness :
    (Metrics.mk 10 20 [10] [10]).gauge25 = 10 ∧
    (Metrics.mk 10 20 [10] [10]).gauge10 = 20 ∧
    (Metrics.mk 10 20 [10] [10]).hist25 = m0.hist25 ++ [10] ∧
    (Metrics.mk 10 20 [10] [10]).hist10 = m0.hist10 ++ [20 - 10] := by
  have h : get_data m0 (.ok ()) ([((10 : ℚ), (20 : ℚ))].map Except.ok) (.ok ()) =
      .ok ((10, 20), Metrics.mk 10 20 [10] [10]) := by
    rw [get_data_ok]
    norm_num [m0, round1, roundHalfEven]
  exact C8_metrics_sink.1 m0 [(10, 20)] 10 20 (Metrics.mk 10 20 [10] [10]) h

/-- A query that raises propagates out of the accumulation loop no matter how
many successful queries preceded it. -/
theorem sumQueries_error (pre : List (ℚ × ℚ))
    (rest : List (Except String (ℚ × ℚ))) (acc : ℚ × ℚ) (e : String) :
    sumQueries (pre.map Except.ok ++ .error e :: rest) acc = .error e := by
  induction pre generalizing acc with
  | nil => rfl
  | cons q pre ih => exact ih _

/-- A successful iteration passes to the LED sink the same color for both
channels (both are `get_aqi_color` of the same level and country). -/
theorem cycleStep_led_pair (cfg : Config) (F : AqiLib) (st : LoopState)
    (m : Metrics) (cs : CycleSensor) (st2 : LoopState) (m2 : Metrics)
    (exp : CycleExports) (h : cycleStep cfg F st m cs = .ok (st2, m2, exp)) :
    ∀ p : Option String × Option String, exp.led = some p → p.1 = p.2 := by
  unfold cycleStep at h
  cases hg : get_data m cs.wake cs.queries cs.sleepRes with
  | error e =>
    rw [hg] at h
    exact Except.noConfusion h
  | ok v =>
    rw [hg] at h
    obtain ⟨⟨p25, p10⟩, mm⟩ := v
    simp only [Except.ok.injEq, Prod.mk.injEq] at h
    obtain ⟨h1, h2, h3⟩ := h
    intro p hp
    rw [← h3] at hp
    by_cases ho : cfg.omnia_leds
    · rw [if_pos ho] at hp
      injection hp with hp'
      rw [← hp']
    · rw [if_neg ho] at hp
      exact Option.noConfusion hp

/-- C9: in every successful run of the main loop, each cycle that exported to
the indicator-light sink passed equal colors to the PM2.5 channel and the
PM10 channel — both are computed from the same overall AQI severity level, so
the two channels can never show different colors in the same cycle. -/
theorem C9_led_channels_equal (cfg : Config) (F : AqiLib) (st : LoopState)
    (m : Metrics) (trace : List CycleSensor)
    (r : LoopState × Metrics × List CycleExports)
    (h : runLoop cfg F st m trace = .ok r) :
    ∀ exp ∈ r.2.2, ∀ p : Option String × Option String,
      exp.led = some p → p.1 = p.2 := by
  induction trace generalizing st m r with
  | nil =>
    simp only [runLoop, Except.ok.injEq] at h
    intro exp hmem
    rw [← h] at hmem
    exact absurd hmem (by simp)
  | cons cs rest ih =>
    rw [show runLoop cfg F st m (cs :: rest) =
        (match cycleStep cfg F st m cs with
         | .error e => .error e
         | .ok (st2, m2, exp) =>
           match runLoop cfg F st2 m2 rest with
           | .error e => .error e
           | .ok (stF, mF, outs) => .ok (stF, mF, exp :: outs)) from rfl] at h
    split at h
    · exact Except.noConfusion h
    · next st2 m2 exp hc =>
      split at h
      · exact Except.noConfusion h
      · next stF mF outs hr =>
        simp only [Except.ok.injEq] at h
        intro e hmem p hp
        rw [← h] at hmem
        rcases List.mem_cons.mp hmem with rfl | hm
        · exact cycleStep_led_pair cfg F st m cs st2 m2 e hc p hp
        · exact ih st2 m2 (stF, mF, outs) hr e hm p hp

/-- Witness for C9: a concrete one-cycle run with the LED sink enabled
exports the same color on both channels. -/
theorem C9_witness :
    runLoop cfgW FW ⟨[], []⟩ m0 [goodCycle] =
      .ok (⟨[10], [20]⟩, Metrics.mk 10 20 [10] [10],
        [CycleExports.mk (some (some "121 227 71", some "121 227 71")) none none]) ∧
    ((some "121 227 71" : Option String), (some "121 227 71" : Option String)).1 =
      ((some "121 227 71" : Option String), (some "121 227 71" : Option String)).2 := by
  have hgd : get_data m0 goodCycle.wake goodCycle.queries goodCycle.sleepRes =
      .ok ((10, 20), Metrics.mk 10 20 [10] [10]) := by
    show get_data m0 (.ok ()) ([((10 : ℚ), (20 : ℚ))].map Except.ok) (.ok ()) = _
    rw [get_data_ok]
    norm_num [m0, round1, roundHalfEven]
  have hcs : cycleStep cfgW FW ⟨[], []⟩ m0 goodCycle =
      .ok (⟨[10], [20]⟩, Metrics.mk 10 20 [10] [10],
        CycleExports.mk (some (some "121 227 71", some "121 227 71")) none none) := by
    simp only [cycleStep, hgd]
    norm_num [cfgW, FW, window_push, compute_aqi, get_aqi_color]
    decide
  have hrun : runLoop cfgW FW ⟨[], []⟩ m0 [goodCycle] =
      .ok (⟨[10], [20]⟩, Metrics.mk 10 20 [10] [10],
        [CycleExports.mk (some (some "121 227 71", some "121 227 71")) none none]) := by
    show (match cycleStep cfgW FW ⟨[], []⟩ m0 goodCycle with
      | .error e => Except.error e
      | .ok (st2, m2, exp) =>
        match runLoop cfgW FW st2 m2 [] with
        | .error e => Except.error e
        | .ok (stF, mF, outs) => Except.ok (stF, mF, exp :: outs)) = _
    rw [hcs]
    rfl
  refine ⟨hrun, ?_⟩
  exact C9_led_channels_equal cfgW FW ⟨[], []⟩ m0 [goodCycle] _ hrun
    (CycleExports.mk (some (some "121 227 71", some "121 227 71")) none none)
    (by simp) (some "121 227 71", some "121 227 71") rfl

/-- C1 counterexample: the claim says sensor failures are caught and the
scheduler proceeds to the next iteration; here a run whose first cycle's
`sensor.query()` raises terminates the whole loop with that error — the
second (healthy) cycle never runs and nothing is exported. -/
theorem C1_counterexample :
    runLoop cfgW FW ⟨[], []⟩ m0 [badCycle, goodCycle] = .error "sensor failure" := rfl

/-- C1 amended: a driver exception during wake, any query, or sleep is not
caught anywhere: it propagates out of `get_data` (leaving the metrics, the
windows and every sink untouched for that cycle) and terminates the main
loop with the error. -/
theorem C1_amended_sensor_error_terminates :
    (∀ (m : Metrics) (qs : List (Except String (ℚ × ℚ)))
        (sr : Except String Unit) (e : String),
      get_data m (.error e) qs sr = .error e) ∧
    (∀ (m : Metrics) (pre : List (ℚ × ℚ))
        (rest : List (Except String (ℚ × ℚ))) (sr : Except String Unit)
        (e : String),
      get_data m (.ok ()) (pre.map Except.ok ++ .error e :: rest) sr = .error e) ∧
    (∀ (m : Metrics) (raw : List (ℚ × ℚ)) (e : String),
      get_data m (.ok ()) (raw.map Except.ok) (.error e) = .error e) ∧
    (∀ (cfg : Config) (F : AqiLib) (st : LoopState) (m : Metrics)
        (cs : CycleSensor) (rest : List CycleSensor) (e : String),
      get_data m cs.wake cs.queries cs.sleepRes = .error e →
      runLoop cfg F st m (cs :: rest) = .error e) := by
  refine ⟨fun m qs sr e => rfl, fun m pre rest sr e => ?_, fun m raw e => ?_, ?_⟩
  · show (match sumQueries (pre.map Except.ok ++ .error e :: rest) (0, 0) with
      | .error e => Except.error e
      | .ok _ => _) = Except.error e
    rw [sumQueries_error]
  · show (match sumQueries (raw.map Except.ok) (0, 0) with
      | .error e => Except.error e
      | .ok _ => _) = Except.error e
    rw [sumQueries_ok]
  · intro cfg F st m cs rest e h
    have hc : cycleStep cfg F st m cs = .error e := by
      unfold cycleStep
      rw [h]
    show (match cycleStep cfg F st m cs with
      | .error e => Except.error e
      | .ok (st2, m2, exp) => _) = Except.error e
    rw [hc]

/-- Witness for C1's amended claim: with a concrete failing query the loop
run returns that very error. -/
theorem C1_witness : runLoop cfgW FW ⟨[], []⟩ m0 [badCycle] = .error "sensor failure" :=
  C1_amended_sensor_error_terminates.2.2.2 cfgW FW ⟨[], []⟩ m0 badCycle []
    "sensor failure" rfl

end GetAqi
